import Mathlib

/-!
Verification development for the ForAiogram conversation middleware.

The definitions below are a shallow embedding of `src/questions.py` and
`src/conversation.py` (the two iterations of the post-processing pipeline
kept in the repository), together with models, taken from the
specification, of the `aiogram.contrib.questions` state/group API that the
repository uses but does not ship under src/.

Conventions of the embedding:
* Python dicts become association lists with insertion-order semantics
  (`Dict`); `dset` overwrites the first binding in place or appends.
* Fallible Python operations return `Except PyErr`: `del d[k]` on an
  absent key is `PyErr.keyError k`; calling `.extend` on a non-list value
  is `PyErr.attributeError`; `states[0]` on an empty sequence is
  `PyErr.indexError`; attribute access on Python `None` is
  `PyErr.attributeError`.
* Rendering (`ask_question`) is modelled as the list of outbound effects
  it performs, in order.
-/

/-- Storage values, `StorageData = Union[str, int, list, None]` from the source. -/
inductive StorageData
  | str (s : String)
  | int (n : Int)
  | list (xs : List StorageData)
  | pyNone
  deriving Repr

/-- Python exceptions raised by the embedded code. -/
inductive PyErr
  | keyError (k : String)
  | attributeError
  | indexError
  | typeError
  deriving Repr, DecidableEq

/-- A Python dict with string keys: an insertion-ordered association list. -/
abbrev Dict := List (String × StorageData)

/-- Lookup, `d[k]`/`d.get(k)`: the value of the first binding of `k`. -/
def dget : Dict → String → Option StorageData
  | [], _ => none
  | p :: rest, k => if p.1 == k then some p.2 else dget rest k

/-- Assignment, `d[k] = v`: overwrite the first binding of `k` in place,
or append a new binding when `k` is absent. -/
def dset : Dict → String → StorageData → Dict
  | [], k, v => [(k, v)]
  | p :: rest, k, v => if p.1 == k then (k, v) :: rest else p :: dset rest k v

/-- Deletion of a present key, the mutation done by `del d[k]`. -/
def ddel : Dict → String → Dict
  | [], _ => []
  | p :: rest, k => if p.1 == k then rest else p :: ddel rest k

/-- Embeds `to_list` from `src/questions.py` lines 23-26 at `StorageData`:
a Python list keeps its elements, any other value is wrapped singleton. -/
def to_list : StorageData → List StorageData
  | .list xs => xs
  | v => [v]

/-- True exactly for Python list values. -/
def StorageData.isList : StorageData → Bool
  | .list _ => true
  | _ => false

/-- The `del_keys` field of `NewData`, `Union[str, list]` in the source. -/
inductive DelKeys
  | str (s : String)
  | list (ks : List String)
  deriving Repr

/-- Embeds `to_list` applied to `del_keys`: a bare string is wrapped. -/
def to_listD : DelKeys → List String
  | .str s => [s]
  | .list ks => ks

/-- Embeds `NewData` from `src/questions.py` lines 63-67 (same definition at
`src/conversation.py` lines 92-96). -/
structure NewData where
  set_items : List (String × StorageData)
  extend_items : List (String × StorageData)
  del_keys : DelKeys

/-- Embeds `udata.update(self.set_items)`: unconditional overwrite of each
key, in the iteration order of `set_items`. -/
def apply_set (m : Dict) (items : List (String × StorageData)) : Dict :=
  items.foldl (fun acc p => dset acc p.1 p.2) m

/-- Embeds one iteration of the extend loop of `update_proxy`
(`src/questions.py` lines 74-76): `udata.setdefault(key, [])` followed by
`udata[key].extend(to_list(value))`. An absent key is initialised to the
empty list and then extended; an existing list is extended in place; any
other existing value has no `.extend` attribute, so Python raises
`AttributeError`. -/
def extend_one (m : Dict) (k : String) (v : StorageData) : Except PyErr Dict :=
  match dget m k with
  | none => .ok (dset m k (.list (to_list v)))
  | some (.list l) => .ok (dset m k (.list (l ++ to_list v)))
  | some _ => .error .attributeError

/-- The extend loop of `update_proxy`: entries applied left to right, the
first failure aborts the loop (the exception propagates). -/
def apply_extend : Dict → List (String × StorageData) → Except PyErr Dict
  | m, [] => .ok m
  | m, (k, v) :: rest =>
    match extend_one m k v with
    | .ok m2 => apply_extend m2 rest
    | .error e => .error e

/-- The delete loop of `update_proxy` (`src/questions.py` lines 78-79):
`del udata[key]` for each key, left to right; `del` on an absent key
raises `KeyError`, aborting the loop. -/
def apply_del : Dict → List String → Except PyErr Dict
  | m, [] => .ok m
  | m, k :: rest =>
    if (dget m k).isSome then apply_del (ddel m k) rest
    else .error (.keyError k)

/-- Embeds `NewData.update_proxy` (`src/questions.py` lines 69-79): set
phase, then extend phase, then delete phase, inside one
`state_ctx.proxy()` scope. An error value means the corresponding Python
call raises; since `FSMContextProxy.__aexit__` persists only on clean
exit, an error also means the stored map keeps its pre-call contents. -/
def NewData.update_proxy (d : NewData) (m : Dict) : Except PyErr Dict :=
  match apply_extend (apply_set m d.set_items) d.extend_items with
  | .ok m2 => apply_del m2 (to_listD d.del_keys)
  | .error e => .error e

/-- A single `Quest` value, `Quest = Union[str, QuestText, QuestFunc]` in
`aiogram.contrib.questions`; `pyNone` is Python `None` (the default for
`on_exception` and `on_conv_exit`) and `other` is any further object. The
keyboard of a `QuestText` and the thunk of a `QuestFunc` are opaque. -/
inductive Quest
  | text (s : String)
  | questText (body : String) (keyboard : String)
  | questFunc (id : Nat)
  | pyNone
  | other (id : Nat)
  deriving Repr, DecidableEq

/-- Argument of `ask_question`, `Union[Quest, list[Quest]]`: either one
value or a Python list of values (`to_list` distinguishes exactly these). -/
inductive QuestVal
  | single (q : Quest)
  | many (qs : List Quest)
  deriving Repr, DecidableEq

/-- Embeds `to_list` applied to the argument of `ask_question`. -/
def to_listQ : QuestVal → List Quest
  | .single q => [q]
  | .many qs => qs

/-- Outbound effects performed while rendering: a `bot.send_message` call
(text plus optional reply markup) or the invocation of a `QuestFunc` thunk. -/
inductive Effect
  | sendMessage (text : String) (markup : Option String)
  | runFunc (id : Nat)
  deriving Repr, DecidableEq

/-- Embeds the inner `ask_quest` of `ask_question` (`src/questions.py`
lines 46-52): a `str` is sent as a plain message, a `QuestText` is sent
with its keyboard, a `QuestFunc` runs its thunk, and any other value
(including `None`) falls through every `isinstance` branch and does
nothing. -/
def ask_quest : Quest → List Effect
  | .text s => [.sendMessage s none]
  | .questText b k => [.sendMessage b (some k)]
  | .questFunc i => [.runFunc i]
  | .pyNone => []
  | .other _ => []

/-- The rendering loop `for q in to_list(question): await ask_quest(q)`,
as the concatenation of each element's effects in order. -/
def ask_each : List Quest → List Effect
  | [] => []
  | q :: rest => ask_quest q ++ ask_each rest

/-- Embeds `ask_question` from `src/questions.py` lines 41-55 (identical at
`src/conversation.py` lines 56-70), as the list of effects it performs. -/
def ask_question (q : QuestVal) : List Effect :=
  ask_each (to_listQ q)

/-- True for the quest shapes `ask_quest` handles: `str`, `QuestText`,
`QuestFunc`. -/
def Quest.isHandled : Quest → Bool
  | .text _ => true
  | .questText _ _ => true
  | .questFunc _ => true
  | _ => false

/-- A `ConvState` from `aiogram.contrib.questions`: its unique name and the
question set presented on entry. -/
structure ConvState where
  name : String
  question : QuestVal
  deriving Repr, DecidableEq

/-- A `ConvStatesGroup`: the ordered list of its states. -/
structure ConvGroup where
  states : List ConvState
  deriving Repr, DecidableEq

/-- The `conv_state` field of `NewState`: an explicit `ConvState`, a
`ConvStatesGroup` class, a string (only the exact string `previous` is
recognised by `set_state`), or any other object. -/
inductive ConvTarget
  | state (s : ConvState)
  | group (g : ConvGroup)
  | str (s : String)
  | other
  deriving Repr, DecidableEq

/-- Embeds `HandleException` from `src/questions.py` lines 58-60. -/
structure HandleException where
  on_exception : QuestVal
  deriving Repr, DecidableEq

/-- Embeds `NewState` from `src/questions.py` lines 82-85. -/
structure NewState where
  conv_state : ConvTarget
  on_conv_exit : QuestVal
  deriving Repr, DecidableEq

mutual
/-- A handler result value as inspected by `search_in_results`: a directive
instance, any other non-sequence object (`atom`), or a (possibly nested)
Python list or tuple of result values. -/
inductive Result
  | exc (e : HandleException)
  | nst (n : NewState)
  | dat (d : NewData)
  | atom
  | list (items : ResultList)
  | tuple (items : ResultList)

inductive ResultList
  | nil
  | cons (r : Result) (rs : ResultList)
end

/-- The directive classes `search_in_results` is called with. -/
inductive DirTag
  | excT
  | nstT
  | datT
  deriving Repr, DecidableEq

/-- Embeds the `isinstance(container, obj_type)` test of
`search_in_results` for each directive class. -/
def isInst : DirTag → Result → Bool
  | .excT, .exc _ => true
  | .nstT, .nst _ => true
  | .datT, .dat _ => true
  | _, _ => false

mutual
/-- Embeds `search_in_results` from `src/questions.py` lines 29-38
(identical at `src/conversation.py` lines 44-53): lists and tuples are
searched element by element, left to right, returning the first non-`None`
recursive result; a non-sequence container is returned iff it is an
instance of the searched type. -/
def search_in_results (t : DirTag) : Result → Option Result
  | .list items => searchList t items
  | .tuple items => searchList t items
  | c => if isInst t c then some c else none

def searchList (t : DirTag) : ResultList → Option Result
  | .nil => none
  | .cons r rs =>
    match search_in_results t r with
    | some o => some o
    | none => searchList t rs
end

/-- The call `search_in_results(HandleException, results)`, projected to
the payload. -/
def searchHE (r : Result) : Option HandleException :=
  match search_in_results .excT r with
  | some (.exc e) => some e
  | _ => none

/-- The call `search_in_results(NewState, results)`, projected to the
payload. -/
def searchNS (r : Result) : Option NewState :=
  match search_in_results .nstT r with
  | some (.nst n) => some n
  | _ => none

/-- The call `search_in_results(NewData, results)`, projected to the
payload. -/
def searchND (r : Result) : Option NewData :=
  match search_in_results .datT r with
  | some (.dat d) => some d
  | _ => none

mutual
/-- The non-sequence values of a result tree in depth-first, left-to-right
order. Specification-side definition used to state the search-order
property of `search_in_results`. -/
def dfsAtoms : Result → List Result
  | .list items => dfsAtomsL items
  | .tuple items => dfsAtomsL items
  | r => [r]

def dfsAtomsL : ResultList → List Result
  | .nil => []
  | .cons r rs => dfsAtoms r ++ dfsAtomsL rs
end

/-- The per-conversation context: the active state name (`None` when no
conversation is in progress) and the scratch key/value map held by the
FSM storage. -/
structure Ctx where
  activeState : Option String
  map : Dict
  deriving Repr

/-- Modelled from the spec: the process-wide lookup table from state name
to its `ConvState` and owning group (section 4.2 Lookup-by-name), built
from all declared groups; `None` when the name belongs to no registered
state. The registry itself lives in `aiogram.contrib.questions`, which is
not under src/. -/
def lookup_state : List ConvGroup → String → Option (ConvState × ConvGroup)
  | [], _ => none
  | g :: rest, nm =>
    match g.states.find? (fun s => s.name == nm) with
    | some s => some (s, g)
    | none => lookup_state rest nm

/-- Modelled from the spec: `ConvStatesGroup` navigation `next(current)`
(section 4.2), from `aiogram.contrib.questions`, not under src/. Returns
the state after `current`; the first state when `current` is not found;
`None` when `current` is last. -/
def group_next (g : ConvGroup) (cur : String) : Option ConvState :=
  match g.states.findIdx? (fun s => s.name == cur) with
  | none => g.states.head?
  | some i => g.states.get? (i + 1)

/-- Modelled from the spec: `ConvStatesGroup` navigation `previous(current)`
(section 4.2), from `aiogram.contrib.questions`, not under src/. Returns
the state before `current`; `None` when `current` is first or not found
(asymmetric with `next`, preserved verbatim per the spec). -/
def group_previous (g : ConvGroup) (cur : String) : Option ConvState :=
  match g.states.findIdx? (fun s => s.name == cur) with
  | none => none
  | some i => if i = 0 then none else g.states.get? (i - 1)

/-- Modelled from the spec: `ConvStatesGroup.get_previous_state()` from
`aiogram.contrib.questions`, not under src/. Per sections 4.2 and 4.4:
resolve the context's active state name through the registry (`None` on a
lookup miss, meaning no conversation in progress), then take the group's
`previous`. -/
def get_previous_state (reg : List ConvGroup) (ctx : Ctx) : Option ConvState :=
  match ctx.activeState with
  | none => none
  | some nm =>
    match lookup_state reg nm with
    | none => none
    | some (s, g) => group_previous g s.name

/-- Modelled from the spec: `ConvStatesGroup.get_next_state()` from
`aiogram.contrib.questions`, not under src/. Per sections 4.2 and 4.5.3c:
resolve the context's active state name through the registry (`None` on a
lookup miss), then take the group's `next`. -/
def get_next_state (reg : List ConvGroup) (ctx : Ctx) : Option ConvState :=
  match ctx.activeState with
  | none => none
  | some nm =>
    match lookup_state reg nm with
    | none => none
    | some (s, g) => group_next g s.name

/-- The aiogram `FSMContext.finish()` call: resets the stored state to
`None` and the stored data to the empty dict (aiogram v2
`BaseStorage.finish` delegates to `reset_state(with_data=True)`). -/
def fsm_finish (_ : Ctx) : Ctx :=
  { activeState := none, map := [] }

/-- The target-resolution chain of `NewState.set_state`
(`src/questions.py` lines 88-96): an explicit `ConvState` is taken as is;
a `ConvStatesGroup` class contributes `states[0]` (an empty group makes
Python raise `IndexError`); the exact string `previous` resolves through
`ConvStatesGroup.get_previous_state()`; anything else yields `None`. -/
def resolve_target (reg : List ConvGroup) (ctx : Ctx) : ConvTarget → Except PyErr (Option ConvState)
  | .state s => .ok (some s)
  | .group g =>
    match g.states with
    | [] => .error .indexError
    | s :: _ => .ok (some s)
  | .str s => if s == "previous" then .ok (get_previous_state reg ctx) else .ok none
  | .other => .ok none

/-- Embeds `NewState.set_state` (`src/questions.py` lines 87-101): resolve
the target, call `state.set()` (which stores the state's name as the
active state) only when the resolution is truthy, and return the resolved
state together with the updated context. -/
def NewState.set_state (n : NewState) (reg : List ConvGroup) (ctx : Ctx) :
    Except PyErr (Option ConvState × Ctx) :=
  match resolve_target reg ctx n.conv_state with
  | .error e => .error e
  | .ok none => .ok (none, ctx)
  | .ok (some s) => .ok (some s, { ctx with activeState := some s.name })

/-- Embeds `SwitchConvState.on_post_process_message` from
`src/questions.py` lines 138-160 as a function from the handler results
and the context to the updated context and the outbound effects, or a
Python exception. The branches, in source order: a found
`HandleException` only renders its `on_exception`; otherwise a found
`NewState` is applied via `set_state`, rendering the new state's question
or, when resolution yielded `None`, the directive's `on_conv_exit`;
otherwise `ConvStatesGroup.get_next_state()` is consulted and its result
is set and rendered, or, when it is `None`, `state_ctx.finish()` is
called (which clears the active state and the scratch map) and nothing is
rendered. -/
def SwitchConvState.on_post_process_message (reg : List ConvGroup) (results : Result)
    (ctx : Ctx) : Except PyErr (Ctx × List Effect) :=
  match searchHE results with
  | some e => .ok (ctx, ask_question e.on_exception)
  | none =>
    match searchNS results with
    | some n =>
      match n.set_state reg ctx with
      | .error err => .error err
      | .ok (some s, ctx2) => .ok (ctx2, ask_question s.question)
      | .ok (none, ctx2) => .ok (ctx2, ask_question n.on_conv_exit)
    | none =>
      match get_next_state reg ctx with
      | some s => .ok ({ ctx with activeState := some s.name }, ask_question s.question)
      | none => .ok (fsm_finish ctx, [])

/-- Embeds `UserDataUpdater.on_post_process_message` from
`src/questions.py` lines 122-127: look for a `NewData` in the results and
apply `update_proxy` only when one was found (`if new_data:`), acting on
the scratch map of the current context. -/
def UserDataUpdater.on_post_process_message (results : Result) (m : Dict) :
    Except PyErr Dict :=
  match searchND results with
  | some d => d.update_proxy m
  | none => .ok m

/-- Embeds `UserDataUpdater.on_post_process_message` from
`src/conversation.py` lines 129-133. This iteration has no `if new_data:`
guard: it evaluates `new_data.update_proxy(state_ctx)` unconditionally, so
when `search_in_results` found no `NewData` the attribute access on
Python `None` raises `AttributeError`. -/
def ConversationPy.UserDataUpdater.on_post_process_message (results : Result) (m : Dict) :
    Except PyErr Dict :=
  match searchND results with
  | some d => d.update_proxy m
  | none => .error .attributeError

/-- Writing a key always makes it readable with the written value. -/
theorem dget_dset_self (m : Dict) (k : String) (v : StorageData) :
    dget (dset m k v) k = some v := by
  induction m with
  | nil => simp [dget, dset]
  | cons p rest ih =>
    cases h : p.1 == k with
    | true => simp [dset, dget, h]
    | false => simp [dset, dget, h, ih]

/-- C2, amended: deleting an absent key is an error, not a no-op. For
every map `m` and key `k` absent from `m`, `update_proxy` with
`del_keys = [k]` raises `KeyError(k)` (the `del udata[key]` statement of
`src/questions.py` line 79); because the proxy persists only on clean
exit, the stored map keeps its original contents, but the call fails. -/
theorem c2_delete_absent_raises (m : Dict) (k : String) (h : dget m k = none) :
    NewData.update_proxy ⟨[], [], DelKeys.list [k]⟩ m = .error (.keyError k) := by
  simp [NewData.update_proxy, apply_set, apply_extend, to_listD, apply_del, h]

/-- C2, counterexample to the claim as stated: on the empty map, deleting
the absent key `k` fails with `KeyError` instead of returning the map
unchanged. -/
theorem c2_counterexample :
    NewData.update_proxy ⟨[], [], DelKeys.list ["k"]⟩ [] = .error (.keyError "k") ∧
    NewData.update_proxy ⟨[], [], DelKeys.list ["k"]⟩ [] ≠ .ok [] :=
  ⟨rfl, fun h => nomatch h⟩

/-- C2, witness: the amended theorem applied at the empty map and key `k`. -/
theorem c2_witness :
    dget [] "k" = none ∧
    NewData.update_proxy ⟨[], [], DelKeys.list ["k"]⟩ [] = .error (.keyError "k") :=
  ⟨rfl, c2_delete_absent_raises [] "k" rfl⟩

/-- C5: extending a key absent from the map initialises it to the empty
list and appends `to_list` of the update value, so after `update_proxy`
with extend entry `(k, v)` the value under `k` is exactly
`to_list v` (a scalar `v` yields the one-element list). -/
theorem c5_extend_absent (m : Dict) (k : String) (v : StorageData)
    (h : dget m k = none) :
    NewData.update_proxy ⟨[], [(k, v)], DelKeys.list []⟩ m
      = .ok (dset m k (.list (to_list v))) ∧
    dget (dset m k (.list (to_list v))) k = some (.list (to_list v)) := by
  constructor
  · simp [NewData.update_proxy, apply_set, apply_extend, extend_one, h, to_listD, apply_del]
  · exact dget_dset_self m k _

/-- C5, witness: Scenario D, extending absent key `tags` with the scalar
`vip` stores the one-element list containing `vip`. -/
theorem c5_witness :
    dget [] "tags" = none ∧
    (NewData.update_proxy ⟨[], [("tags", .str "vip")], DelKeys.list []⟩ []
        = .ok (dset [] "tags" (.list (to_list (.str "vip")))) ∧
      dget (dset [] "tags" (.list (to_list (.str "vip")))) "tags"
        = some (.list (to_list (.str "vip")))) :=
  ⟨rfl, c5_extend_absent [] "tags" (.str "vip") rfl⟩

/-- C6: for a key holding list `L`, running `update_proxy` with extend
entry `(k, v)` twice yields, under `k`, the list `L ++ to_list v ++
to_list v` — the original elements in order followed by the coerced value
twice — whose length is `L.length + 2 * (to_list v).length`. -/
theorem c6_extend_twice (m : Dict) (k : String) (L : List StorageData) (v : StorageData)
    (h : dget m k = some (.list L)) :
    ∃ m1 m2,
      NewData.update_proxy ⟨[], [(k, v)], DelKeys.list []⟩ m = .ok m1 ∧
      NewData.update_proxy ⟨[], [(k, v)], DelKeys.list []⟩ m1 = .ok m2 ∧
      dget m2 k = some (.list (L ++ to_list v ++ to_list v)) ∧
      (L ++ to_list v ++ to_list v).length = L.length + 2 * (to_list v).length := by
  refine ⟨dset m k (.list (L ++ to_list v)),
    dset (dset m k (.list (L ++ to_list v))) k (.list (L ++ to_list v ++ to_list v)),
    ?_, ?_, ?_, ?_⟩
  · simp [NewData.update_proxy, apply_set, apply_extend, extend_one, h, to_listD, apply_del]
  · have h1 : dget (dset m k (.list (L ++ to_list v))) k = some (.list (L ++ to_list v)) :=
      dget_dset_self m k _
    simp [NewData.update_proxy, apply_set, apply_extend, extend_one, h1, to_listD, apply_del]
  · exact dget_dset_self _ k _
  · simp [List.length_append]
    omega

/-- C6, witness: the theorem applied with `L` the one-element list holding
`1` and `v` the scalar `5`. -/
theorem c6_witness :
    dget [("k", StorageData.list [.int 1])] "k" = some (.list [.int 1]) ∧
    (∃ m1 m2,
      NewData.update_proxy ⟨[], [("k", .int 5)], DelKeys.list []⟩
          [("k", StorageData.list [.int 1])] = .ok m1 ∧
      NewData.update_proxy ⟨[], [("k", .int 5)], DelKeys.list []⟩ m1 = .ok m2 ∧
      dget m2 "k" = some (.list ([StorageData.int 1] ++ to_list (.int 5) ++ to_list (.int 5))) ∧
      ([StorageData.int 1] ++ to_list (.int 5) ++ to_list (.int 5)).length
        = [StorageData.int 1].length + 2 * (to_list (.int 5)).length) :=
  ⟨rfl, c6_extend_twice _ "k" [.int 1] (.int 5) rfl⟩

/-- C9, amended: an extend entry targeting a key whose existing value is
not a list raises `AttributeError` (no `.extend` on the value) and aborts
`update_proxy`: neither the failing key nor any later entry of the same
update is applied — the update is not best-effort per key. -/
theorem c9_extend_type_mismatch_aborts (m : Dict) (k : String) (w v : StorageData)
    (rest : List (String × StorageData)) (hk : dget m k = some w) (hw : w.isList = false) :
    NewData.update_proxy ⟨[], (k, v) :: rest, DelKeys.list []⟩ m = .error .attributeError := by
  have habort : extend_one m k v = .error .attributeError := by
    cases w with
    | list xs => simp [StorageData.isList] at hw
    | str s => simp [extend_one, hk]
    | int n => simp [extend_one, hk]
    | pyNone => simp [extend_one, hk]
  simp [NewData.update_proxy, apply_set, apply_extend, habort]

/-- C9, counterexample to the claim as stated: with key `a` holding the
non-list string `x`, the update extending `a` and then `b` raises
`AttributeError`; it does not return the map the claim predicts, in which
`a` is skipped and `b` is applied. -/
theorem c9_counterexample :
    NewData.update_proxy ⟨[], [("a", .int 1), ("b", .int 2)], DelKeys.list []⟩
        [("a", StorageData.str "x")] = .error .attributeError ∧
    NewData.update_proxy ⟨[], [("a", .int 1), ("b", .int 2)], DelKeys.list []⟩
        [("a", StorageData.str "x")]
      ≠ .ok [("a", StorageData.str "x"), ("b", StorageData.list [.int 2])] :=
  ⟨rfl, fun h => nomatch h⟩

/-- C1: when the handler results contain both a `HandleException` and a
`NewState`, the pipeline renders the exception's question only: the
returned context is the input context unchanged (the active state is left
untouched) and the `NewState` transition is never applied. -/
theorem c1_exception_precedence (reg : List ConvGroup) (results : Result) (ctx : Ctx)
    (e : HandleException) (n : NewState)
    (hE : searchHE results = some e) (hN : searchNS results = some n) :
    SwitchConvState.on_post_process_message reg results ctx
      = .ok (ctx, ask_question e.on_exception) := by
  simp [SwitchConvState.on_post_process_message, hE]

/-- Handler results holding both a `HandleException` and a `NewState`. -/
def res_c1 : Result :=
  .list (.cons (.exc ⟨.single (.text "err")⟩)
    (.cons (.nst ⟨.str "previous", .single .pyNone⟩) .nil))

/-- C1, witness: the theorem applied to a result list holding both
directives, in a context whose active state is `S0`. -/
theorem c1_witness :
    searchHE res_c1 = some ⟨.single (.text "err")⟩ ∧
    searchNS res_c1 = some ⟨.str "previous", .single .pyNone⟩ ∧
    SwitchConvState.on_post_process_message [] res_c1 ⟨some "S0", []⟩
      = .ok (⟨some "S0", []⟩, ask_question (QuestVal.single (.text "err"))) :=
  ⟨rfl, rfl, c1_exception_precedence [] res_c1 ⟨some "S0", []⟩ _ _ rfl rfl⟩

/-- The one-state group used by the concrete pipeline inputs. -/
def S0 : ConvState := ⟨"S0", .single (.text "q0")⟩

/-- The group holding exactly `S0`. -/
def G0 : ConvGroup := ⟨[S0]⟩

/-- A registry declaring only `G0`. -/
def reg0 : List ConvGroup := [G0]

/-- A context whose active state is `S0` with an empty scratch map. -/
def ctx0 : Ctx := ⟨some "S0", []⟩

/-- A handler result that is a lone `NewState` targeting `previous`. -/
def res_c4 : Result := .nst ⟨.str "previous", .single (.text "bye")⟩

/-- C4, counterexample to the claim as stated: at `S0`, the first state of
its group, a `NewState` targeting `previous` resolves to `None`; the
pipeline renders the directive's `on_conv_exit` but returns the context
with active state still `S0` — it is not cleared, the conversation does
not end. -/
theorem c4_counterexample :
    SwitchConvState.on_post_process_message reg0 res_c4 ctx0
      = .ok (ctx0, [Effect.sendMessage "bye" none]) ∧
    ctx0.activeState ≠ none :=
  ⟨rfl, fun h => nomatch h⟩

/-- C4, amended: when a found `NewState` resolves to `None` (for example
`previous` from the first state of a group), the pipeline renders the
directive's `on_conv_exit` question set and returns the context
unchanged: the active state is left as it was, not cleared —
`set_state` calls `state.set()` only on a truthy resolution and nothing in
this branch calls `state_ctx.finish()`. -/
theorem c4_none_resolution_keeps_state (reg : List ConvGroup) (results : Result) (ctx : Ctx)
    (n : NewState) (hE : searchHE results = none) (hN : searchNS results = some n)
    (hres : resolve_target reg ctx n.conv_state = .ok none) :
    SwitchConvState.on_post_process_message reg results ctx
      = .ok (ctx, ask_question n.on_conv_exit) := by
  simp [SwitchConvState.on_post_process_message, hE, hN, NewState.set_state, hres]

/-- C4, witness: the amended theorem applied at `S0` with target
`previous`. -/
theorem c4_witness :
    searchHE res_c4 = none ∧
    searchNS res_c4 = some ⟨.str "previous", .single (.text "bye")⟩ ∧
    resolve_target reg0 ctx0 (ConvTarget.str "previous") = .ok none ∧
    SwitchConvState.on_post_process_message reg0 res_c4 ctx0
      = .ok (ctx0, ask_question (QuestVal.single (.text "bye"))) :=
  ⟨rfl, rfl, rfl, c4_none_resolution_keeps_state reg0 res_c4 ctx0 _ rfl rfl rfl⟩

/-- A context with no active conversation but a non-empty scratch map. -/
def ctx_c8 : Ctx := ⟨none, [("a", .int 1)]⟩

/-- C8, counterexample to the claim as stated: with no active conversation
and a directive-free result, no send occurs, but the pipeline reaches
`state_ctx.finish()`, which resets the scratch map: the non-empty map of
the input context comes back empty — it is mutated. -/
theorem c8_counterexample :
    SwitchConvState.on_post_process_message [] Result.atom ctx_c8
      = .ok (⟨none, []⟩, []) ∧
    ctx_c8.map ≠ [] :=
  ⟨rfl, fun h => nomatch h⟩

/-- C8, amended: with no active conversation and no directive in the
results, no send occurs and `UserDataUpdater` (questions.py) leaves the
map unchanged, but `SwitchConvState` calls `state_ctx.finish()`, which
clears the active state (already `None`) and resets the scratch map to
empty — so the map is unchanged only when it was already empty. -/
theorem c8_no_directive_finishes (reg : List ConvGroup) (results : Result) (ctx : Ctx)
    (hA : ctx.activeState = none) (hE : searchHE results = none)
    (hN : searchNS results = none) (hD : searchND results = none) :
    UserDataUpdater.on_post_process_message results ctx.map = .ok ctx.map ∧
    SwitchConvState.on_post_process_message reg results ctx = .ok (⟨none, []⟩, []) := by
  constructor
  · simp [UserDataUpdater.on_post_process_message, hD]
  · simp [SwitchConvState.on_post_process_message, hE, hN, get_next_state, hA, fsm_finish]

/-- C8, witness: the amended theorem applied to the directive-free atom
result in a conversation-free context. -/
theorem c8_witness :
    ctx_c8.activeState = none ∧
    searchHE Result.atom = none ∧
    searchNS Result.atom = none ∧
    searchND Result.atom = none ∧
    (UserDataUpdater.on_post_process_message Result.atom ctx_c8.map = .ok ctx_c8.map ∧
      SwitchConvState.on_post_process_message [] Result.atom ctx_c8 = .ok (⟨none, []⟩, [])) :=
  ⟨rfl, rfl, rfl, rfl, c8_no_directive_finishes [] Result.atom ctx_c8 rfl rfl rfl rfl⟩

/-- C3: at the failing input — results with no `NewData` directive — the
`UserDataUpdater` of `src/conversation.py` evaluates
`new_data.update_proxy(state_ctx)` with `new_data = None` and raises
`AttributeError`, while the `src/questions.py` iteration (guarded by
`if new_data:`) is a no-op; the pipeline does raise for a missing
directive in the conversation.py iteration. -/
theorem c3_missing_newdata_raises :
    searchND Result.atom = none ∧
    ConversationPy.UserDataUpdater.on_post_process_message Result.atom []
      = .error .attributeError ∧
    UserDataUpdater.on_post_process_message Result.atom [] = .ok [] :=
  ⟨rfl, rfl, rfl⟩

/-- C10: `ask_question` on an argument none of whose elements (after the
`to_list` coercion) is a `str`, `QuestText` or `QuestFunc` performs no
effect at all — every element falls through the `isinstance` chain of
`ask_quest`; in particular it cannot send and cannot raise. -/
theorem c10_unhandled_quests_send_nothing (q : QuestVal)
    (h : ∀ x ∈ to_listQ q, x.isHandled = false) :
    ask_question q = [] := by
  have aux : ∀ qs : List Quest, (∀ x ∈ qs, x.isHandled = false) → ask_each qs = [] := by
    intro qs
    induction qs with
    | nil => intro _; rfl
    | cons a l ih =>
      intro h2
      have ha := h2 a (by simp)
      have hl := ih (fun x hx => h2 x (by simp [hx]))
      cases a <;> simp_all [ask_each, ask_quest, Quest.isHandled]
  exact aux (to_listQ q) h

/-- C10, witness: rendering a `HandleException` whose `on_exception` is
absent (Python `None`) sends nothing. -/
theorem c10_witness :
    (∀ x ∈ to_listQ (QuestVal.single .pyNone), x.isHandled = false) ∧
    ask_question (QuestVal.single .pyNone) = [] :=
  ⟨by decide, c10_unhandled_quests_send_nothing _ (by decide)⟩

/-- Searching a one-element list is the test on its element. -/
theorem find?_singleton (p : Result → Bool) (a : Result) :
    [a].find? p = if p a then some a else none := by
  rw [List.find?_cons]
  cases h : p a <;> simp [h]

/-- Searching an appended list searches the left part first. -/
theorem find?_append_eq (p : Result → Bool) (l1 l2 : List Result) :
    (l1 ++ l2).find? p
      = match l1.find? p with
        | some x => some x
        | none => l2.find? p := by
  rw [List.find?_append]
  cases l1.find? p <;> rfl

mutual
/-- Auxiliary to C7: on any result value, `search_in_results` agrees with
searching the depth-first atom list for the first instance. -/
theorem searchR_eq_find (t : DirTag) : (r : Result) →
    search_in_results t r = (dfsAtoms r).find? (isInst t)
  | .exc e => by simp [search_in_results, dfsAtoms, find?_singleton]
  | .nst n => by simp [search_in_results, dfsAtoms, find?_singleton]
  | .dat d => by simp [search_in_results, dfsAtoms, find?_singleton]
  | .atom => by simp [search_in_results, dfsAtoms, find?_singleton]
  | .list items => by
    simp [search_in_results, dfsAtoms, searchL_eq_find t items]
  | .tuple items => by
    simp [search_in_results, dfsAtoms, searchL_eq_find t items]

/-- Auxiliary to C7: the element loop of `search_in_results` agrees with
searching the concatenated depth-first atom lists. -/
theorem searchL_eq_find (t : DirTag) : (rs : ResultList) →
    searchList t rs = (dfsAtomsL rs).find? (isInst t)
  | .nil => by simp [searchList, dfsAtomsL]
  | .cons r rs => by
    simp only [searchList, dfsAtomsL, find?_append_eq, searchR_eq_find t r,
      searchL_eq_find t rs]
end

/-- C7: `search_in_results` returns exactly the first non-sequence value,
in depth-first left-to-right traversal order, that is an instance of the
searched directive type (a non-sequence value matches iff it is an
instance of that type), and `none` when no instance occurs anywhere in the
container; later duplicate instances are ignored, because `find?` keeps
only the first match of the traversal. -/
theorem c7_search_first_in_dfs_order (t : DirTag) (r : Result) :
    search_in_results t r = (dfsAtoms r).find? (isInst t) :=
  searchR_eq_find t r

/-- C9, witness: the amended theorem applied at the concrete mismatching
update. -/
theorem c9_witness :
    dget [("a", StorageData.str "x")] "a" = some (.str "x") ∧
    (StorageData.str "x").isList = false ∧
    NewData.update_proxy ⟨[], [("a", .int 1), ("b", .int 2)], DelKeys.list []⟩
        [("a", StorageData.str "x")] = .error .attributeError :=
  ⟨rfl, rfl, c9_extend_type_mismatch_aborts _ "a" (.str "x") (.int 1) _ rfl rfl⟩
